import Mathlib

/-!
Shallow embedding of the real-time socket subsystem of the
rad5-communication-tool repository (the socket handler file: connection
registry, room live sets, message status transitions, call signaling).
Maps are modelled as association lists with JavaScript Map semantics
(set replaces in place or appends; delete removes the key), and Sets of
user ids as duplicate-free lists (add appends if absent, delete filters).
Outbound socket emissions are collected as an explicit list of `Emit`
values carrying the socket.io target and the event payload.
-/

namespace RadComm

/-- Message delivery status stored by the persistence collaborator:
sent, delivered or read. -/
inductive MsgStatus where
  | sent
  | delivered
  | read
deriving DecidableEq

/-- Numeric rank of a status along the sent - delivered - read order. -/
def statusRank : MsgStatus → Nat
  | .sent => 0
  | .delivered => 1
  | .read => 2

/-- Rank of an optional status; a missing message ranks 0. -/
def statusRankOpt : Option MsgStatus → Nat
  | none => 0
  | some s => statusRank s

/-- Media kind of a call, audio or video. -/
inductive MediaKind where
  | audio
  | video
deriving DecidableEq

/-- One active call session as stored in the activeCalls map:
callerId, receiverId, media type and optional channelId
(startedAt is a wall-clock timestamp, not modelled). -/
structure CallSession where
  callerId : String
  receiverId : String
  type : MediaKind
  channelId : Option String
deriving DecidableEq

/-- One persisted message row, restricted to the fields the socket layer
reads or writes: the original sender, the delivery status, and the
deliveredAt/readAt timestamp columns abstracted to set/unset flags. -/
structure MessageRec where
  senderId : String
  status : MsgStatus
  deliveredAt : Bool
  readAt : Bool
deriving DecidableEq

/-- A socket.io room: a channel room, a DM room, or a per-user room. -/
inductive Room where
  | channel (id : String)
  | dm (id : String)
  | user (id : String)
deriving DecidableEq

/-- Target of an outbound emission: a single socket (io.to(socketId) or
socket.emit on the own socket), a whole room (io.to(room)), a room minus
the sending socket (socket.to(room)), or all connections (io.emit). -/
inductive Target where
  | sock (sid : String)
  | room (r : Room)
  | roomEx (r : Room) (sid : String)
  | all
deriving DecidableEq

/-- Outbound event payloads, one constructor per server-to-client event
emitted by the handlers modelled here (timestamp fields omitted). -/
inductive OutEvent where
  | userPresence (userId status : String)
  | userJoined (channelId userId : String)
  | joinedChannel (channelId : String)
  | joinedDm (dmId : String)
  | userLeft (channelId userId : String)
  | errorEv (message : String)
  | newMessageEv (channelId msgId status : String)
  | newDmMessageEv (dmId msgId status : String)
  | messageStatusUpdate (messageId channelId status : String)
  | dmMessageStatusUpdate (messageId dmId status : String)
  | unreadUpdate (dmId senderId : String)
  | callIncoming (callId callerId : String) (type : MediaKind) (channelId : Option String)
  | callFailed (callId reason : String)
  | callInitiated (callId receiverId : String) (type : MediaKind)
  | callAccepted (callId acceptedBy : String)
  | callRejected (callId rejectedBy reason : String)
  | callEnded (callId endedBy : String) (reason : Option String)
  | callOffer (callId offer callerId : String)
  | callAnswer (callId answer answererId : String)
  | iceCandidateEv (callId candidate fromId : String)
  | callMediaToggled (callId userId : String) (mediaType : MediaKind) (enabled : Bool)
deriving DecidableEq

/-- One outbound emission: a target and an event payload. -/
structure Emit where
  target : Target
  ev : OutEvent
deriving DecidableEq

/-- Association-list lookup, first entry with the given key (Map.get). -/
def alGet {α : Type} (l : List (String × α)) (k : String) : Option α :=
  match l with
  | [] => none
  | (k', v) :: t => if k' == k then some v else alGet t k

/-- Association-list update: replace the entry in place if the key is
present, append otherwise (Map.set). -/
def alSet {α : Type} (l : List (String × α)) (k : String) (v : α) :
    List (String × α) :=
  match l with
  | [] => [(k, v)]
  | (k', v') :: t => if k' == k then (k, v) :: t else (k', v') :: alSet t k v

/-- Association-list removal of a key (Map.delete). -/
def alDelete {α : Type} (l : List (String × α)) (k : String) :
    List (String × α) :=
  l.filter (fun p => !(p.1 == k))

/-- Set.add on the list representation of a JS Set: append if absent. -/
def setAdd (l : List String) (u : String) : List String :=
  if l.contains u then l else l ++ [u]

/-- Set.delete on the list representation of a JS Set. -/
def setRemove (l : List String) (u : String) : List String :=
  l.filter (fun x => !(x == u))

/-- Remove a user from every room live set in a map of rooms
(the forEach delete pass of the disconnect handler). -/
def removeFromAll (m : List (String × List String)) (u : String) :
    List (String × List String) :=
  m.map (fun p => (p.1, setRemove p.2 u))

/-- The shared mutable server state: userSockets (userId to socketId),
channelUsers and dmUsers (room id to live set), activeCalls (callId to
session), and the persistence collaborator's message store. -/
structure ServerState where
  userSockets : List (String × String)
  channelUsers : List (String × List String)
  dmUsers : List (String × List String)
  activeCalls : List (String × CallSession)
  messages : List (String × MessageRec)
deriving DecidableEq

/-- isUserOnline: whether the userSockets map has an entry for the user. -/
def isUserOnline (st : ServerState) (userId : String) : Bool :=
  (alGet st.userSockets userId).isSome

/-- Members of a socket.io room under the live-set interpretation:
channel and DM rooms are their live sets, the per-user room contains the
user while their socket is registered. -/
def roomMembers (st : ServerState) (r : Room) : List String :=
  match r with
  | .channel c => (alGet st.channelUsers c).getD []
  | .dm d => (alGet st.dmUsers d).getD []
  | .user u => if (alGet st.userSockets u).isSome then [u] else []

/-- Users that receive an emission with the given target, interpreting
room targets through the live sets and the socket registry. -/
def receiversOf (st : ServerState) (t : Target) : List String :=
  match t with
  | .sock sid => st.userSockets.filterMap
      (fun p => if p.2 == sid then some p.1 else none)
  | .room r => (roomMembers st r).filter
      (fun u => (alGet st.userSockets u).isSome)
  | .roomEx r sid => (roomMembers st r).filter
      (fun u => match alGet st.userSockets u with
        | some s => !(s == sid)
        | none => false)
  | .all => st.userSockets.map (fun p => p.1)

/-- Connection-time registration (lines 266-280 of the socket file):
store the userId to socketId mapping, overwriting any prior handle, and
broadcast the online presence to all connected clients. -/
def handleConnectRegister (st : ServerState) (userId sid : String) :
    ServerState × List Emit :=
  ({ st with userSockets := alSet st.userSockets userId sid },
   [Emit.mk Target.all (OutEvent.userPresence userId "online")])

/-- join_channel handler after the awaited persisted-membership check,
whose outcome is passed as the membership argument: on failure emit an
error event; on success add the user to the channel live set, notify the
rest of the channel room of the join and confirm to the joiner. -/
def handleJoinChannel (st : ServerState) (userId sid channelId : String)
    (membership : Bool) : ServerState × List Emit :=
  if !membership then
    (st, [Emit.mk (Target.sock sid) (OutEvent.errorEv "Not a member of this channel")])
  else
    let cur := (alGet st.channelUsers channelId).getD []
    ({ st with channelUsers := alSet st.channelUsers channelId (setAdd cur userId) },
     [Emit.mk (Target.roomEx (Room.channel channelId) sid) (OutEvent.userJoined channelId userId),
      Emit.mk (Target.sock sid) (OutEvent.joinedChannel channelId)])

/-- join_dm handler after the awaited persisted-membership check: on
failure emit an error event; on success add the user to the DM live set
and confirm to the joiner (the source sends no join notification to the
other DM members). -/
def handleJoinDm (st : ServerState) (userId sid dmId : String)
    (membership : Bool) : ServerState × List Emit :=
  if !membership then
    (st, [Emit.mk (Target.sock sid) (OutEvent.errorEv "Not a member of this DM")])
  else
    let cur := (alGet st.dmUsers dmId).getD []
    ({ st with dmUsers := alSet st.dmUsers dmId (setAdd cur userId) },
     [Emit.mk (Target.sock sid) (OutEvent.joinedDm dmId)])

/-- Per-member delivered fanout of the new_message handler: one
delivered status update addressed to the socket of each live member
other than the sender whose socket is registered. -/
def deliveredFanout (st : ServerState) (userId : String) (members : List String)
    (msgId channelId : String) : List Emit :=
  members.filterMap (fun memberId =>
    if memberId != userId then
      match alGet st.userSockets memberId with
      | some msid => some (Emit.mk (Target.sock msid)
          (OutEvent.messageStatusUpdate msgId channelId "delivered"))
      | none => none
    else none)

/-- Per-member delivered fanout of the new_dm_message handler. -/
def dmDeliveredFanout (st : ServerState) (userId : String) (members : List String)
    (msgId dmId : String) : List Emit :=
  members.filterMap (fun memberId =>
    if memberId != userId then
      match alGet st.userSockets memberId with
      | some msid => some (Emit.mk (Target.sock msid)
          (OutEvent.dmMessageStatusUpdate msgId dmId "delivered"))
      | none => none
    else none)

/-- Per-member unread fanout of the new_dm_message handler: an
unread_update to the per-user room of each live member other than the
sender. -/
def unreadFanout (userId : String) (members : List String) (dmId : String) :
    List Emit :=
  members.filterMap (fun memberId =>
    if memberId != userId then
      some (Emit.mk (Target.room (Room.user memberId))
        (OutEvent.unreadUpdate dmId userId))
    else none)

/-- new_message handler: broadcast the message tagged status sent to the
channel room minus the sender socket; then if the channel has a live-set
entry, emit one delivered status update to each live member other than
the sender whose socket is registered, and one delivered status update
to the sender socket. -/
def handleNewMessage (st : ServerState) (userId sid channelId msgId : String) :
    ServerState × List Emit :=
  let relay := Emit.mk (Target.roomEx (Room.channel channelId) sid)
      (OutEvent.newMessageEv channelId msgId "sent")
  match alGet st.channelUsers channelId with
  | none => (st, [relay])
  | some members =>
      (st, relay :: deliveredFanout st userId members msgId channelId ++
        [Emit.mk (Target.sock sid) (OutEvent.messageStatusUpdate msgId channelId "delivered")])

/-- new_dm_message handler: broadcast the message tagged status sent to
the DM room minus the sender socket; then if the DM has a live-set
entry, emit one delivered status update to each live member other than
the sender whose socket is registered, one delivered status update to
the sender socket, and an unread_update to the per-user room of each
live member other than the sender. -/
def handleNewDmMessage (st : ServerState) (userId sid dmId msgId : String) :
    ServerState × List Emit :=
  let relay := Emit.mk (Target.roomEx (Room.dm dmId) sid)
      (OutEvent.newDmMessageEv dmId msgId "sent")
  match alGet st.dmUsers dmId with
  | none => (st, [relay])
  | some members =>
      (st, relay :: dmDeliveredFanout st userId members msgId dmId ++
        [Emit.mk (Target.sock sid) (OutEvent.dmMessageStatusUpdate msgId dmId "delivered")] ++
        unreadFanout userId members dmId)

/-- Message-store transition of the delivered bulk update: set status to
delivered (and the deliveredAt flag) on every message whose id is in the
requested list and whose status is still sent. -/
def deliveredTransition (messageIds : List String)
    (msgs : List (String × MessageRec)) : List (String × MessageRec) :=
  msgs.map (fun p =>
    if p.1 ∈ messageIds ∧ p.2.status = MsgStatus.sent then
      (p.1, { p.2 with status := MsgStatus.delivered, deliveredAt := true })
    else p)

/-- Message-store transition of the read bulk update: set status to read
(and the readAt and deliveredAt flags) on every message whose id is in
the requested list and whose status is not yet read. -/
def readTransition (messageIds : List String)
    (msgs : List (String × MessageRec)) : List (String × MessageRec) :=
  msgs.map (fun p =>
    if p.1 ∈ messageIds ∧ p.2.status ≠ MsgStatus.read then
      (p.1, { p.2 with status := MsgStatus.read, deliveredAt := true, readAt := true })
    else p)

/-- messages_delivered handler: apply the delivered transition, then for
every message row whose id is in the requested list, if its original
sender has a registered socket, emit a delivered status notification to
that sender socket. -/
def handleMessagesDelivered (st : ServerState) (channelId : String)
    (messageIds : List String) : ServerState × List Emit :=
  let msgs := deliveredTransition messageIds st.messages
  let emits := (msgs.filter (fun p => messageIds.contains p.1)).filterMap (fun p =>
    match alGet st.userSockets p.2.senderId with
    | some ssid => some (Emit.mk (Target.sock ssid)
        (OutEvent.messageStatusUpdate p.1 channelId "delivered"))
    | none => none)
  ({ st with messages := msgs }, emits)

/-- messages_read handler: apply the read transition, then for every
message row whose id is in the requested list, if its original sender
has a registered socket, emit a read status notification to that sender
socket (the lastReadAt column update is a persistence detail outside
this state). -/
def handleMessagesRead (st : ServerState) (channelId : String)
    (messageIds : List String) : ServerState × List Emit :=
  let msgs := readTransition messageIds st.messages
  let emits := (msgs.filter (fun p => messageIds.contains p.1)).filterMap (fun p =>
    match alGet st.userSockets p.2.senderId with
    | some ssid => some (Emit.mk (Target.sock ssid)
        (OutEvent.messageStatusUpdate p.1 channelId "read"))
    | none => none)
  ({ st with messages := msgs }, emits)

/-- dm_messages_delivered handler: identical store transition to the
channel variant, notifications on the dm status event. -/
def handleDmMessagesDelivered (st : ServerState) (dmId : String)
    (messageIds : List String) : ServerState × List Emit :=
  let msgs := deliveredTransition messageIds st.messages
  let emits := (msgs.filter (fun p => messageIds.contains p.1)).filterMap (fun p =>
    match alGet st.userSockets p.2.senderId with
    | some ssid => some (Emit.mk (Target.sock ssid)
        (OutEvent.dmMessageStatusUpdate p.1 dmId "delivered"))
    | none => none)
  ({ st with messages := msgs }, emits)

/-- dm_messages_read handler: identical store transition to the channel
variant, notifications on the dm status event. -/
def handleDmMessagesRead (st : ServerState) (dmId : String)
    (messageIds : List String) : ServerState × List Emit :=
  let msgs := readTransition messageIds st.messages
  let emits := (msgs.filter (fun p => messageIds.contains p.1)).filterMap (fun p =>
    match alGet st.userSockets p.2.senderId with
    | some ssid => some (Emit.mk (Target.sock ssid)
        (OutEvent.dmMessageStatusUpdate p.1 dmId "read"))
    | none => none)
  ({ st with messages := msgs }, emits)

/-- call_initiate handler: build the call id from caller, receiver and
the current clock value, insert the session into activeCalls, then if
the receiver has a registered socket notify them of the incoming call,
otherwise emit call_failed to the caller and delete the session; in
either case finish by emitting call_initiated to the caller. -/
def handleCallInitiate (st : ServerState) (userId sid receiverId : String)
    (type : MediaKind) (channelId : Option String) (now : Nat) :
    ServerState × List Emit :=
  let callId := userId ++ "-" ++ receiverId ++ "-" ++ toString now
  let session := CallSession.mk userId receiverId type channelId
  let st1 := { st with activeCalls := alSet st.activeCalls callId session }
  match alGet st1.userSockets receiverId with
  | some rsid =>
      (st1, [Emit.mk (Target.sock rsid) (OutEvent.callIncoming callId userId type channelId),
             Emit.mk (Target.sock sid) (OutEvent.callInitiated callId receiverId type)])
  | none =>
      ({ st1 with activeCalls := alDelete st1.activeCalls callId },
       [Emit.mk (Target.sock sid) (OutEvent.callFailed callId "User is offline"),
        Emit.mk (Target.sock sid) (OutEvent.callInitiated callId receiverId type)])

/-- call_accept handler: if the call id is unknown emit an error event
to the accepting socket; otherwise notify the caller socket (when
registered) that the call was accepted. The session is not modified. -/
def handleCallAccept (st : ServerState) (userId sid callId : String) :
    ServerState × List Emit :=
  match alGet st.activeCalls callId with
  | none => (st, [Emit.mk (Target.sock sid) (OutEvent.errorEv "Call not found")])
  | some call =>
      match alGet st.userSockets call.callerId with
      | some csid => (st, [Emit.mk (Target.sock csid) (OutEvent.callAccepted callId userId)])
      | none => (st, [])

/-- call_reject handler: unknown call id is a silent no-op; otherwise
notify the caller socket (when registered) with the rejection reason,
defaulting to Call declined, and delete the session. -/
def handleCallReject (st : ServerState) (userId sid callId : String)
    (reason : Option String) : ServerState × List Emit :=
  match alGet st.activeCalls callId with
  | none => (st, [])
  | some call =>
      let emits := match alGet st.userSockets call.callerId with
        | some csid => [Emit.mk (Target.sock csid)
            (OutEvent.callRejected callId userId (reason.getD "Call declined"))]
        | none => []
      ({ st with activeCalls := alDelete st.activeCalls callId }, emits)

/-- call_end handler: unknown call id is a silent no-op; otherwise
notify the socket of the party other than the sender (when registered)
and delete the session. -/
def handleCallEnd (st : ServerState) (userId sid callId : String) :
    ServerState × List Emit :=
  match alGet st.activeCalls callId with
  | none => (st, [])
  | some call =>
      let otherUserId := if call.callerId == userId then call.receiverId else call.callerId
      let emits := match alGet st.userSockets otherUserId with
        | some osid => [Emit.mk (Target.sock osid) (OutEvent.callEnded callId userId none)]
        | none => []
      ({ st with activeCalls := alDelete st.activeCalls callId }, emits)

/-- call_offer handler: unknown call id is a silent no-op; otherwise
forward the offer payload to the socket of the session's receiver
(whoever the sender is). No state change. -/
def handleCallOffer (st : ServerState) (userId sid callId offer : String) :
    ServerState × List Emit :=
  match alGet st.activeCalls callId with
  | none => (st, [])
  | some call =>
      match alGet st.userSockets call.receiverId with
      | some rsid => (st, [Emit.mk (Target.sock rsid) (OutEvent.callOffer callId offer userId)])
      | none => (st, [])

/-- call_answer handler: unknown call id is a silent no-op; otherwise
forward the answer payload to the socket of the session's caller
(whoever the sender is). No state change. -/
def handleCallAnswer (st : ServerState) (userId sid callId answer : String) :
    ServerState × List Emit :=
  match alGet st.activeCalls callId with
  | none => (st, [])
  | some call =>
      match alGet st.userSockets call.callerId with
      | some csid => (st, [Emit.mk (Target.sock csid) (OutEvent.callAnswer callId answer userId)])
      | none => (st, [])

/-- ice_candidate handler: unknown call id is a silent no-op; otherwise
forward the candidate payload to the socket of the party other than the
sender. No state change. -/
def handleIceCandidate (st : ServerState) (userId sid callId candidate : String) :
    ServerState × List Emit :=
  match alGet st.activeCalls callId with
  | none => (st, [])
  | some call =>
      let otherUserId := if call.callerId == userId then call.receiverId else call.callerId
      match alGet st.userSockets otherUserId with
      | some osid => (st, [Emit.mk (Target.sock osid)
          (OutEvent.iceCandidateEv callId candidate userId)])
      | none => (st, [])

/-- call_toggle_media handler: unknown call id is a silent no-op;
otherwise forward the media toggle to the socket of the party other than
the sender. No state change. -/
def handleCallToggleMedia (st : ServerState) (userId sid callId : String)
    (mediaType : MediaKind) (enabled : Bool) : ServerState × List Emit :=
  match alGet st.activeCalls callId with
  | none => (st, [])
  | some call =>
      let otherUserId := if call.callerId == userId then call.receiverId else call.callerId
      match alGet st.userSockets otherUserId with
      | some osid => (st, [Emit.mk (Target.sock osid)
          (OutEvent.callMediaToggled callId userId mediaType enabled)])
      | none => (st, [])

/-- disconnect handler: delete the userSockets entry, emit user_left to
the room of every channel whose live set contains the user and remove
the user from every channel live set, silently remove the user from
every DM live set, delete every call session referencing the user
(emitting call_ended with reason disconnected to the other party's
socket when it is still registered), and broadcast the offline presence
to all connections. -/
def handleDisconnect (st : ServerState) (userId : String) :
    ServerState × List Emit :=
  let sockets := alDelete st.userSockets userId
  let chanEmits := st.channelUsers.filterMap (fun p =>
    if p.2.contains userId then
      some (Emit.mk (Target.room (Room.channel p.1)) (OutEvent.userLeft p.1 userId))
    else none)
  let channels := removeFromAll st.channelUsers userId
  let dms := removeFromAll st.dmUsers userId
  let callEmits := st.activeCalls.filterMap (fun p =>
    if p.2.callerId == userId || p.2.receiverId == userId then
      let otherUserId := if p.2.callerId == userId then p.2.receiverId else p.2.callerId
      match alGet sockets otherUserId with
      | some osid => some (Emit.mk (Target.sock osid)
          (OutEvent.callEnded p.1 userId (some "disconnected")))
      | none => none
    else none)
  let calls := st.activeCalls.filter (fun p =>
    !(p.2.callerId == userId || p.2.receiverId == userId))
  (ServerState.mk sockets channels dms calls st.messages,
   chanEmits ++ callEmits ++
     [Emit.mk Target.all (OutEvent.userPresence userId "offline")])

theorem alGet_alSet_self {α : Type} (l : List (String × α)) (k : String) (v : α) :
    alGet (alSet l k v) k = some v := by
  induction l with
  | nil => simp [alSet, alGet]
  | cons p t ih =>
      obtain ⟨k', v'⟩ := p
      by_cases h : k' = k
      · subst h; simp [alSet, alGet]
      · have hb : (k' == k) = false := by simp [h]
        simp [alSet, alGet, hb, ih]

theorem alGet_alSet_ne {α : Type} (l : List (String × α)) (k k' : String) (v : α)
    (h : k' ≠ k) : alGet (alSet l k v) k' = alGet l k' := by
  induction l with
  | nil => simp [alSet, alGet, Ne.symm h]
  | cons p t ih =>
      obtain ⟨a, b⟩ := p
      by_cases ha : a = k
      · subst ha
        simp [alSet, alGet, Ne.symm h]
      · have hb : (a == k) = false := by simp [ha]
        by_cases ha' : a = k'
        · subst ha'; simp [alSet, alGet, hb]
        · simp [alSet, alGet, hb, ha', ih]

theorem alGet_alDelete_self {α : Type} (l : List (String × α)) (k : String) :
    alGet (alDelete l k) k = none := by
  induction l with
  | nil => simp [alDelete, alGet]
  | cons p t ih =>
      obtain ⟨a, b⟩ := p
      by_cases ha : a = k
      · subst ha
        simpa [alDelete, List.filter_cons] using ih
      · have hb : (a == k) = false := by simp [ha]
        simpa [alDelete, List.filter_cons, hb, alGet] using ih

theorem alGet_alDelete_ne {α : Type} (l : List (String × α)) (k k' : String)
    (h : k' ≠ k) : alGet (alDelete l k) k' = alGet l k' := by
  induction l with
  | nil => simp [alDelete, alGet]
  | cons p t ih =>
      obtain ⟨a, b⟩ := p
      by_cases ha : a = k
      · subst ha
        have hb : (a == k') = false := by simp [Ne.symm h]
        simpa [alDelete, List.filter_cons, alGet, hb] using ih
      · have hb : (a == k) = false := by simp [ha]
        by_cases ha' : a = k'
        · subst ha'; simp [alDelete, List.filter_cons, hb, alGet]
        · simpa [alDelete, List.filter_cons, hb, alGet, ha'] using ih

theorem alGet_removeFromAll (m : List (String × List String)) (u k : String) :
    alGet (removeFromAll m u) k = (alGet m k).map (fun users => setRemove users u) := by
  induction m with
  | nil => simp [removeFromAll, alGet]
  | cons p t ih =>
      obtain ⟨a, b⟩ := p
      by_cases ha : a = k
      · subst ha; simp [removeFromAll, alGet]
      · simpa [removeFromAll, alGet, ha] using ih

theorem not_mem_setRemove (l : List String) (u : String) :
    u ∉ setRemove l u := by
  simp [setRemove, List.mem_filter]

theorem mem_setRemove_of_ne (l : List String) (u x : String) (hx : x ≠ u)
    (h : x ∈ l) : x ∈ setRemove l u := by
  simp [setRemove, List.mem_filter, h, hx]

theorem mem_setAdd_iff (l : List String) (u x : String) :
    x ∈ setAdd l u ↔ x ∈ l ∨ x = u := by
  by_cases hu : u ∈ l
  · have hc : l.contains u = true := by simpa using hu
    simp only [setAdd, hc, if_pos]
    constructor
    · exact Or.inl
    · rintro (hx | hx)
      · exact hx
      · subst hx; exact hu
  · simp [setAdd, hu, List.mem_append]

theorem mem_of_alGet_eq_some {α : Type} (l : List (String × α)) (k : String) (v : α)
    (h : alGet l k = some v) : (k, v) ∈ l := by
  induction l with
  | nil => simp [alGet] at h
  | cons p t ih =>
      obtain ⟨a, b⟩ := p
      by_cases ha : a = k
      · subst ha
        simp [alGet] at h
        simp [h]
      · simp [alGet, ha] at h
        exact List.mem_cons_of_mem _ (ih h)

/-- Whether an emission is addressed to one specific socket id. -/
def targetsSock (e : Emit) (sid : String) : Bool :=
  match e.target with
  | Target.sock s => s == sid
  | _ => false

/-- An empty server state, used to instantiate universally quantified
theorems at a concrete input. -/
def stEmpty : ServerState :=
  ServerState.mk [] [] [] [] []

/-- C9: disconnect teardown is keyed only by user identity; after
connecting twice (the second handle silently replacing the first in the
registry) a single disconnect removes the userSockets entry entirely, so
isUserOnline is false and the offline presence is broadcast, even though
the second handle had replaced the first. -/
theorem C9_disconnect_keyed_by_user (st : ServerState) (u s1 s2 : String) :
    alGet ((handleConnectRegister (handleConnectRegister st u s1).1 u s2).1).userSockets u
      = some s2 ∧
    isUserOnline (handleDisconnect (handleConnectRegister (handleConnectRegister st u s1).1 u s2).1 u).1 u = false ∧
    alGet (handleDisconnect (handleConnectRegister (handleConnectRegister st u s1).1 u s2).1 u).1.userSockets u = none ∧
    Emit.mk Target.all (OutEvent.userPresence u "offline")
      ∈ (handleDisconnect (handleConnectRegister (handleConnectRegister st u s1).1 u s2).1 u).2 := by
  refine ⟨?_, ?_, ?_, ?_⟩
  · simp [handleConnectRegister, alGet_alSet_self]
  · simp [handleDisconnect, handleConnectRegister, isUserOnline, alGet_alDelete_self]
  · simp [handleDisconnect, handleConnectRegister, alGet_alDelete_self]
  · simp [handleDisconnect, List.mem_append]

/-- C10: call_initiate always emits call_initiated with the generated
call id to the caller, and when the receiver has no registered socket
the caller receives call_failed followed by call_initiated for that same
id while the session has already been deleted. -/
theorem C10_call_initiated_unconditional (st : ServerState)
    (userId sid receiverId : String) (type : MediaKind)
    (channelId : Option String) (now : Nat) :
    Emit.mk (Target.sock sid)
        (OutEvent.callInitiated (userId ++ "-" ++ receiverId ++ "-" ++ toString now) receiverId type)
      ∈ (handleCallInitiate st userId sid receiverId type channelId now).2 ∧
    (alGet st.userSockets receiverId = none →
      (handleCallInitiate st userId sid receiverId type channelId now).2 =
        [Emit.mk (Target.sock sid)
           (OutEvent.callFailed (userId ++ "-" ++ receiverId ++ "-" ++ toString now) "User is offline"),
         Emit.mk (Target.sock sid)
           (OutEvent.callInitiated (userId ++ "-" ++ receiverId ++ "-" ++ toString now) receiverId type)] ∧
      alGet (handleCallInitiate st userId sid receiverId type channelId now).1.activeCalls
          (userId ++ "-" ++ receiverId ++ "-" ++ toString now) = none) := by
  constructor
  · cases h : alGet st.userSockets receiverId with
    | none => simp [handleCallInitiate, h]
    | some rsid => simp [handleCallInitiate, h]
  · intro h
    refine ⟨?_, ?_⟩
    · simp [handleCallInitiate, h]
    · simp [handleCallInitiate, h, alGet_alDelete_self]

/-- C10 witness: concrete offline initiate on the empty state. -/
theorem C10_witness :
    Emit.mk (Target.sock "sA") (OutEvent.callInitiated "A-B-5" "B" MediaKind.audio)
      ∈ (handleCallInitiate stEmpty "A" "sA" "B" MediaKind.audio none 5).2 ∧
    alGet (handleCallInitiate stEmpty "A" "sA" "B" MediaKind.audio none 5).1.activeCalls "A-B-5" = none :=
  ⟨(C10_call_initiated_unconditional stEmpty "A" "sA" "B" MediaKind.audio none 5).1,
   (((C10_call_initiated_unconditional stEmpty "A" "sA" "B" MediaKind.audio none 5).2 (by decide)).2)⟩

/-- C7: when the receiver has no registered socket, call_initiate emits
call_failed with reason User is offline to the caller and no session
with the generated call id remains in activeCalls afterwards. -/
theorem C7_call_initiate_offline (st : ServerState)
    (userId sid receiverId : String) (type : MediaKind)
    (channelId : Option String) (now : Nat)
    (h : alGet st.userSockets receiverId = none) :
    Emit.mk (Target.sock sid)
        (OutEvent.callFailed (userId ++ "-" ++ receiverId ++ "-" ++ toString now) "User is offline")
      ∈ (handleCallInitiate st userId sid receiverId type channelId now).2 ∧
    alGet (handleCallInitiate st userId sid receiverId type channelId now).1.activeCalls
        (userId ++ "-" ++ receiverId ++ "-" ++ toString now) = none := by
  refine ⟨?_, ?_⟩
  · simp [handleCallInitiate, h]
  · simp [handleCallInitiate, h, alGet_alDelete_self]

/-- C7 witness: concrete offline initiate on the empty state. -/
theorem C7_witness :
    Emit.mk (Target.sock "sA") (OutEvent.callFailed "A-B-5" "User is offline")
      ∈ (handleCallInitiate stEmpty "A" "sA" "B" MediaKind.audio none 5).2 ∧
    alGet (handleCallInitiate stEmpty "A" "sA" "B" MediaKind.audio none 5).1.activeCalls "A-B-5" = none :=
  C7_call_initiate_offline stEmpty "A" "sA" "B" MediaKind.audio none 5 (by decide)

/-- C1 (amended): on an unknown call id, call_reject, call_end,
call_offer, call_answer, ice_candidate and call_toggle_media are silent
no-ops (no emission, no state change), while call_accept leaves the
state unchanged but emits an error event Call not found to the
requesting socket. -/
theorem C1_unknown_call_signaling (st : ServerState)
    (userId sid callId offer answer candidate : String)
    (reason : Option String) (mediaType : MediaKind) (enabled : Bool)
    (h : alGet st.activeCalls callId = none) :
    handleCallReject st userId sid callId reason = (st, []) ∧
    handleCallEnd st userId sid callId = (st, []) ∧
    handleCallOffer st userId sid callId offer = (st, []) ∧
    handleCallAnswer st userId sid callId answer = (st, []) ∧
    handleIceCandidate st userId sid callId candidate = (st, []) ∧
    handleCallToggleMedia st userId sid callId mediaType enabled = (st, []) ∧
    handleCallAccept st userId sid callId =
      (st, [Emit.mk (Target.sock sid) (OutEvent.errorEv "Call not found")]) := by
  refine ⟨?_, ?_, ?_, ?_, ?_, ?_, ?_⟩ <;>
    simp [handleCallReject, handleCallEnd, handleCallOffer, handleCallAnswer,
      handleIceCandidate, handleCallToggleMedia, handleCallAccept, h]

/-- C1 witness: the unknown-call behavior on the empty state. -/
theorem C1_witness :
    handleCallReject stEmpty "A" "sA" "c" none = (stEmpty, []) ∧
    handleCallEnd stEmpty "A" "sA" "c" = (stEmpty, []) ∧
    handleCallOffer stEmpty "A" "sA" "c" "o" = (stEmpty, []) ∧
    handleCallAnswer stEmpty "A" "sA" "c" "a" = (stEmpty, []) ∧
    handleIceCandidate stEmpty "A" "sA" "c" "i" = (stEmpty, []) ∧
    handleCallToggleMedia stEmpty "A" "sA" "c" MediaKind.audio true = (stEmpty, []) ∧
    handleCallAccept stEmpty "A" "sA" "c" =
      (stEmpty, [Emit.mk (Target.sock "sA") (OutEvent.errorEv "Call not found")]) :=
  C1_unknown_call_signaling stEmpty "A" "sA" "c" "o" "a" "i" none MediaKind.audio true (by decide)

/-- A two-user state with one ringing call, for the C1 counterexample. -/
def stC1 : ServerState :=
  ServerState.mk [("A", "sA"), ("B", "sB")] [] []
    [("c1", CallSession.mk "A" "B" MediaKind.audio none)] []

/-- C1 counterexample: call_accept arriving after call_end on the same
call id is not silent; it emits an error event to the accepting socket,
refuting the claim that no outbound event of any kind is emitted. -/
theorem C1_counterexample :
    (handleCallAccept (handleCallEnd stC1 "A" "sA" "c1").1 "B" "sB" "c1").2 =
      [Emit.mk (Target.sock "sB") (OutEvent.errorEv "Call not found")] := by
  decide

/-- C5 (amended): on an existing session, call_offer forwards the
payload to the socket of the session's receiver and call_answer to the
socket of the session's caller, in both cases regardless of which party
sent the event, while ice_candidate forwards to the party other than the
sender; none of the three changes the state. -/
theorem C5_signaling_forwarding (st : ServerState)
    (userId sid callId payload : String) (call : CallSession)
    (h : alGet st.activeCalls callId = some call) :
    (∀ rsid, alGet st.userSockets call.receiverId = some rsid →
      handleCallOffer st userId sid callId payload =
        (st, [Emit.mk (Target.sock rsid) (OutEvent.callOffer callId payload userId)])) ∧
    (∀ csid, alGet st.userSockets call.callerId = some csid →
      handleCallAnswer st userId sid callId payload =
        (st, [Emit.mk (Target.sock csid) (OutEvent.callAnswer callId payload userId)])) ∧
    (∀ osid, alGet st.userSockets
          (if call.callerId = userId then call.receiverId else call.callerId) = some osid →
      handleIceCandidate st userId sid callId payload =
        (st, [Emit.mk (Target.sock osid) (OutEvent.iceCandidateEv callId payload userId)])) := by
  refine ⟨?_, ?_, ?_⟩
  · intro rsid hr; simp [handleCallOffer, h, hr]
  · intro csid hc; simp [handleCallAnswer, h, hc]
  · intro osid ho; simp [handleIceCandidate, h, ho]

/-- A two-user state with one ringing call, for the C5 claim. -/
def stC5 : ServerState :=
  ServerState.mk [("A", "sA"), ("B", "sB")] [] []
    [("c1", CallSession.mk "A" "B" MediaKind.audio none)] []

/-- C5 witness: concrete forwarding on a one-call state. -/
theorem C5_witness :
    handleCallOffer stC5 "A" "sA" "c1" "sdp" =
      (stC5, [Emit.mk (Target.sock "sB") (OutEvent.callOffer "c1" "sdp" "A")]) ∧
    handleCallAnswer stC5 "B" "sB" "c1" "ans" =
      (stC5, [Emit.mk (Target.sock "sA") (OutEvent.callAnswer "c1" "ans" "B")]) :=
  ⟨(C5_signaling_forwarding stC5 "A" "sA" "c1" "sdp" (CallSession.mk "A" "B" MediaKind.audio none)
      (by decide)).1 "sB" (by decide),
   (C5_signaling_forwarding stC5 "B" "sB" "c1" "ans" (CallSession.mk "A" "B" MediaKind.audio none)
      (by decide)).2.1 "sA" (by decide)⟩

/-- C5 counterexample: a call_offer sent by the receiver of the session
is forwarded to the receiver's own socket, not to the caller (the only
other party), refuting forwarding to the party other than the sender. -/
theorem C5_counterexample :
    (handleCallOffer stC5 "B" "sB" "c1" "sdp").2 =
      [Emit.mk (Target.sock "sB") (OutEvent.callOffer "c1" "sdp" "B")] ∧
    alGet stC5.userSockets "A" = some "sA" ∧ "sB" ≠ "sA" := by
  decide

/-- One bulk status update event as received by the messages_delivered,
messages_read, dm_messages_delivered or dm_messages_read handlers (the
channel and DM variants apply the same store transition). -/
inductive StatusEvent where
  | deliveredUpd (ids : List String)
  | readUpd (ids : List String)

/-- Apply one bulk status event to the message store. -/
def applyStatusEvent (msgs : List (String × MessageRec)) :
    StatusEvent → List (String × MessageRec)
  | .deliveredUpd ids => deliveredTransition ids msgs
  | .readUpd ids => readTransition ids msgs

/-- Run a sequence of bulk status events over the message store. -/
def runStatusEvents (msgs : List (String × MessageRec))
    (es : List StatusEvent) : List (String × MessageRec) :=
  es.foldl applyStatusEvent msgs

/-- Status of a message id in the store, when present. -/
def getStatus (msgs : List (String × MessageRec)) (k : String) :
    Option MsgStatus :=
  (alGet msgs k).map (fun m => m.status)

theorem alGet_deliveredTransition (ids : List String)
    (msgs : List (String × MessageRec)) (k : String) :
    alGet (deliveredTransition ids msgs) k =
      (alGet msgs k).map (fun m =>
        if k ∈ ids ∧ m.status = MsgStatus.sent then
          { m with status := MsgStatus.delivered, deliveredAt := true }
        else m) := by
  induction msgs with
  | nil => simp [deliveredTransition, alGet]
  | cons p t ih =>
      obtain ⟨a, m⟩ := p
      simp only [deliveredTransition, List.map_cons]
      by_cases hc : a ∈ ids ∧ m.status = MsgStatus.sent
      · rw [if_pos hc]
        by_cases ha : a = k
        · subst ha; simp [alGet, hc]
        · simpa [alGet, ha, deliveredTransition] using ih
      · rw [if_neg hc]
        by_cases ha : a = k
        · subst ha; simp [alGet, hc]
        · simpa [alGet, ha, deliveredTransition] using ih

theorem alGet_readTransition (ids : List String)
    (msgs : List (String × MessageRec)) (k : String) :
    alGet (readTransition ids msgs) k =
      (alGet msgs k).map (fun m =>
        if k ∈ ids ∧ m.status ≠ MsgStatus.read then
          { m with status := MsgStatus.read, deliveredAt := true, readAt := true }
        else m) := by
  induction msgs with
  | nil => simp [readTransition, alGet]
  | cons p t ih =>
      obtain ⟨a, m⟩ := p
      simp only [readTransition, List.map_cons]
      by_cases hc : a ∈ ids ∧ m.status ≠ MsgStatus.read
      · rw [if_pos hc]
        by_cases ha : a = k
        · subst ha; simp [alGet, hc]
        · simpa [alGet, ha, readTransition] using ih
      · rw [if_neg hc]
        by_cases ha : a = k
        · subst ha; simp [alGet, hc]
        · simpa [alGet, ha, readTransition] using ih

theorem rank_mono_step (msgs : List (String × MessageRec)) (e : StatusEvent)
    (k : String) :
    statusRankOpt (getStatus msgs k) ≤
      statusRankOpt (getStatus (applyStatusEvent msgs e) k) := by
  cases e with
  | deliveredUpd ids =>
      simp only [applyStatusEvent, getStatus, alGet_deliveredTransition]
      cases h : alGet msgs k with
      | none => simp [statusRankOpt]
      | some m =>
          by_cases hc : k ∈ ids ∧ m.status = MsgStatus.sent
          · simp [hc, hc.2, statusRankOpt, statusRank]
          · simp [hc]
  | readUpd ids =>
      simp only [applyStatusEvent, getStatus, alGet_readTransition]
      cases h : alGet msgs k with
      | none => simp [statusRankOpt]
      | some m =>
          by_cases hc : k ∈ ids ∧ m.status ≠ MsgStatus.read
          · cases hs : m.status <;> simp [hc, hs, statusRankOpt, statusRank]
          · simp [hc]

theorem rank_mono_run (es : List StatusEvent)
    (msgs : List (String × MessageRec)) (k : String) :
    statusRankOpt (getStatus msgs k) ≤
      statusRankOpt (getStatus (runStatusEvents msgs es) k) := by
  induction es generalizing msgs with
  | nil => simp [runStatusEvents]
  | cons e t ih =>
      exact le_trans (rank_mono_step msgs e k)
        (by simpa [runStatusEvents] using ih (applyStatusEvent msgs e))

/-- C3: along any sequence of bulk delivered and read updates the stored
status of every message only moves forward on the sent, delivered, read
order (the rank after a prefix never exceeds the rank after the whole
sequence); a delivered update leaves a message already at delivered or
read untouched, a read update leaves a message already at read
untouched, and a read update on a message in the id list not yet at read
sets the status to read with the deliveredAt flag set. -/
theorem C3_status_monotone (msgs : List (String × MessageRec))
    (es1 es2 : List StatusEvent) (ids : List String) (k : String)
    (m : MessageRec) (h : alGet msgs k = some m) :
    statusRankOpt (getStatus (runStatusEvents msgs es1) k) ≤
      statusRankOpt (getStatus (runStatusEvents msgs (es1 ++ es2)) k) ∧
    (m.status ≠ MsgStatus.sent → alGet (deliveredTransition ids msgs) k = some m) ∧
    (m.status = MsgStatus.read → alGet (readTransition ids msgs) k = some m) ∧
    (k ∈ ids → m.status ≠ MsgStatus.read →
      alGet (readTransition ids msgs) k =
        some { m with status := MsgStatus.read, deliveredAt := true, readAt := true }) := by
  refine ⟨?_, ?_, ?_, ?_⟩
  · have hsplit : runStatusEvents msgs (es1 ++ es2) =
        runStatusEvents (runStatusEvents msgs es1) es2 := by
      simp [runStatusEvents, List.foldl_append]
    rw [hsplit]
    exact rank_mono_run es2 (runStatusEvents msgs es1) k
  · intro hs
    simp [alGet_deliveredTransition, h, hs]
  · intro hr
    simp [alGet_readTransition, h, hr]
  · intro hid hr
    simp [alGet_readTransition, h, hid, hr]

/-- C3 witness: a concrete two-message store with one delivered and one
read bulk update. -/
theorem C3_witness :
    statusRankOpt (getStatus (runStatusEvents
        [("m1", MessageRec.mk "S" MsgStatus.sent false false)]
        [StatusEvent.deliveredUpd ["m1"]]) "m1") ≤
      statusRankOpt (getStatus (runStatusEvents
        [("m1", MessageRec.mk "S" MsgStatus.sent false false)]
        ([StatusEvent.deliveredUpd ["m1"]] ++ [StatusEvent.readUpd ["m1"]])) "m1") ∧
    alGet (readTransition ["m1"] [("m1", MessageRec.mk "S" MsgStatus.delivered true false)]) "m1" =
      some (MessageRec.mk "S" MsgStatus.read true true) :=
  ⟨(C3_status_monotone [("m1", MessageRec.mk "S" MsgStatus.sent false false)]
      [StatusEvent.deliveredUpd ["m1"]] [StatusEvent.readUpd ["m1"]] ["m1"] "m1"
      (MessageRec.mk "S" MsgStatus.sent false false) (by decide)).1,
   (C3_status_monotone [("m1", MessageRec.mk "S" MsgStatus.delivered true false)]
      [] [] ["m1"] "m1"
      (MessageRec.mk "S" MsgStatus.delivered true false) (by decide)).2.2.2
      (by decide) (by decide)⟩

theorem sender_preserved_delivered (ids : List String)
    (msgs : List (String × MessageRec)) (i : String) (m : MessageRec)
    (h : (i, m) ∈ msgs) :
    ∃ m', (i, m') ∈ deliveredTransition ids msgs ∧ m'.senderId = m.senderId := by
  by_cases hc : i ∈ ids ∧ m.status = MsgStatus.sent
  · refine ⟨{ m with status := MsgStatus.delivered, deliveredAt := true }, ?_, rfl⟩
    have hx := List.mem_map_of_mem (fun p =>
      if p.1 ∈ ids ∧ p.2.status = MsgStatus.sent then
        (p.1, { p.2 with status := MsgStatus.delivered, deliveredAt := true })
      else p) h
    simpa [deliveredTransition, hc] using hx
  · refine ⟨m, ?_, rfl⟩
    have hx := List.mem_map_of_mem (fun p =>
      if p.1 ∈ ids ∧ p.2.status = MsgStatus.sent then
        (p.1, { p.2 with status := MsgStatus.delivered, deliveredAt := true })
      else p) h
    simpa [deliveredTransition, hc] using hx

theorem sender_preserved_read (ids : List String)
    (msgs : List (String × MessageRec)) (i : String) (m : MessageRec)
    (h : (i, m) ∈ msgs) :
    ∃ m', (i, m') ∈ readTransition ids msgs ∧ m'.senderId = m.senderId := by
  by_cases hc : i ∈ ids ∧ m.status ≠ MsgStatus.read
  · refine ⟨{ m with status := MsgStatus.read, deliveredAt := true, readAt := true }, ?_, rfl⟩
    have hx := List.mem_map_of_mem (fun p =>
      if p.1 ∈ ids ∧ p.2.status ≠ MsgStatus.read then
        (p.1, { p.2 with status := MsgStatus.read, deliveredAt := true, readAt := true })
      else p) h
    simpa [readTransition, hc] using hx
  · refine ⟨m, ?_, rfl⟩
    have hx := List.mem_map_of_mem (fun p =>
      if p.1 ∈ ids ∧ p.2.status ≠ MsgStatus.read then
        (p.1, { p.2 with status := MsgStatus.read, deliveredAt := true, readAt := true })
      else p) h
    simpa [readTransition, hc] using hx

/-- C8 (amended): the bulk updates emit a per-message status
notification to the original sender of every message in the requested id
list that exists in the store and whose sender is currently connected,
regardless of whether this update transitioned the message; messages
already at or past the target status keep their stored row unchanged
but still produce a notification. -/
theorem C8_bulk_status_notifications (st : ServerState) (channelId : String)
    (ids : List String) (i : String) (m : MessageRec) (ssid : String)
    (hmem : (i, m) ∈ st.messages) (hid : i ∈ ids)
    (hsock : alGet st.userSockets m.senderId = some ssid) :
    Emit.mk (Target.sock ssid) (OutEvent.messageStatusUpdate i channelId "delivered")
      ∈ (handleMessagesDelivered st channelId ids).2 ∧
    Emit.mk (Target.sock ssid) (OutEvent.messageStatusUpdate i channelId "read")
      ∈ (handleMessagesRead st channelId ids).2 ∧
    (m.status ≠ MsgStatus.sent → alGet st.messages i = some m →
      alGet (handleMessagesDelivered st channelId ids).1.messages i = some m) ∧
    (m.status = MsgStatus.read → alGet st.messages i = some m →
      alGet (handleMessagesRead st channelId ids).1.messages i = some m) := by
  refine ⟨?_, ?_, ?_, ?_⟩
  · obtain ⟨m', hm', hs⟩ := sender_preserved_delivered ids st.messages i m hmem
    simp only [handleMessagesDelivered]
    refine List.mem_filterMap.mpr ⟨(i, m'), List.mem_filter.mpr ⟨hm', by simpa using hid⟩, ?_⟩
    simp [hs, hsock]
  · obtain ⟨m', hm', hs⟩ := sender_preserved_read ids st.messages i m hmem
    simp only [handleMessagesRead]
    refine List.mem_filterMap.mpr ⟨(i, m'), List.mem_filter.mpr ⟨hm', by simpa using hid⟩, ?_⟩
    simp [hs, hsock]
  · intro hstat hget
    simp [handleMessagesDelivered, alGet_deliveredTransition, hget, hstat]
  · intro hstat hget
    simp [handleMessagesRead, alGet_readTransition, hget, hstat]

/-- A state with one connected sender and one message already read, for
the C8 claim. -/
def stC8 : ServerState :=
  ServerState.mk [("S", "sS")] [] [] []
    [("m1", MessageRec.mk "S" MsgStatus.read true true)]

/-- C8 witness: concrete bulk updates on a one-message store. -/
theorem C8_witness :
    Emit.mk (Target.sock "sS") (OutEvent.messageStatusUpdate "m1" "ch" "delivered")
      ∈ (handleMessagesDelivered stC8 "ch" ["m1"]).2 ∧
    alGet (handleMessagesDelivered stC8 "ch" ["m1"]).1.messages "m1" =
      some (MessageRec.mk "S" MsgStatus.read true true) :=
  ⟨(C8_bulk_status_notifications stC8 "ch" ["m1"] "m1"
      (MessageRec.mk "S" MsgStatus.read true true) "sS"
      (by decide) (by decide) (by decide)).1,
   (C8_bulk_status_notifications stC8 "ch" ["m1"] "m1"
      (MessageRec.mk "S" MsgStatus.read true true) "sS"
      (by decide) (by decide) (by decide)).2.2.1 (by decide) (by decide)⟩

/-- C8 counterexample: a messages_delivered request naming a message
already at read does not transition it, yet a delivered notification is
still emitted to its connected sender, refuting the only-if-affected
claim. -/
theorem C8_counterexample :
    (handleMessagesDelivered stC8 "ch" ["m1"]).2 =
      [Emit.mk (Target.sock "sS") (OutEvent.messageStatusUpdate "m1" "ch" "delivered")] ∧
    alGet (handleMessagesDelivered stC8 "ch" ["m1"]).1.messages "m1" =
      some (MessageRec.mk "S" MsgStatus.read true true) := by
  decide

/-- C6 (amended): a successful join_channel adds the user to the channel
live set, emits user_joined to the channel room minus the joiner's
socket (so existing live members with a registered socket other than the
joiner's receive it, and the joiner does not) followed by the
joined_channel confirmation to the joiner; a successful join_dm adds the
user to the DM live set and emits only the joined_dm confirmation to the
joiner, with no join notification to existing members. -/
theorem C6_join_room_handlers (st : ServerState)
    (userId sid channelId dmId : String)
    (hsock : alGet st.userSockets userId = some sid) :
    userId ∈ ((alGet (handleJoinChannel st userId sid channelId true).1.channelUsers channelId).getD []) ∧
    (handleJoinChannel st userId sid channelId true).2 =
      [Emit.mk (Target.roomEx (Room.channel channelId) sid) (OutEvent.userJoined channelId userId),
       Emit.mk (Target.sock sid) (OutEvent.joinedChannel channelId)] ∧
    userId ∉ receiversOf (handleJoinChannel st userId sid channelId true).1
        (Target.roomEx (Room.channel channelId) sid) ∧
    (∀ v, v ∈ (alGet st.channelUsers channelId).getD [] →
      ∀ s, alGet st.userSockets v = some s → s ≠ sid →
        v ∈ receiversOf (handleJoinChannel st userId sid channelId true).1
            (Target.roomEx (Room.channel channelId) sid)) ∧
    userId ∈ ((alGet (handleJoinDm st userId sid dmId true).1.dmUsers dmId).getD []) ∧
    (handleJoinDm st userId sid dmId true).2 =
      [Emit.mk (Target.sock sid) (OutEvent.joinedDm dmId)] := by
  refine ⟨?_, ?_, ?_, ?_, ?_, ?_⟩
  · simp only [handleJoinChannel, Bool.not_true, Bool.false_eq_true, if_false]
    rw [alGet_alSet_self]
    simp [mem_setAdd_iff]
  · simp [handleJoinChannel]
  · simp only [handleJoinChannel, Bool.not_true, Bool.false_eq_true, if_false,
      receiversOf, roomMembers]
    rw [alGet_alSet_self]
    intro hmem
    rw [List.mem_filter] at hmem
    have hpred := hmem.2
    simp [hsock] at hpred
  · intro v hv s hs hne
    simp only [handleJoinChannel, Bool.not_true, Bool.false_eq_true, if_false,
      receiversOf, roomMembers]
    rw [alGet_alSet_self]
    refine List.mem_filter.mpr ⟨?_, ?_⟩
    · simp [mem_setAdd_iff, hv]
    · simp [hs, hne]
  · simp only [handleJoinDm, Bool.not_true, Bool.false_eq_true, if_false]
    rw [alGet_alSet_self]
    simp [mem_setAdd_iff]
  · simp [handleJoinDm]

/-- A state with one live DM member B and two connected users, for the
C6 claim. -/
def stC6 : ServerState :=
  ServerState.mk [("A", "sA"), ("B", "sB")] [] [("d1", ["B"])] [] []

/-- C6 witness: concrete channel and DM joins. -/
theorem C6_witness :
    "A" ∈ ((alGet (handleJoinChannel stC6 "A" "sA" "g" true).1.channelUsers "g").getD []) ∧
    (handleJoinDm stC6 "A" "sA" "d1" true).2 =
      [Emit.mk (Target.sock "sA") (OutEvent.joinedDm "d1")] :=
  ⟨(C6_join_room_handlers stC6 "A" "sA" "g" "d1" (by decide)).1,
   (C6_join_room_handlers stC6 "A" "sA" "g" "d1" (by decide)).2.2.2.2.2⟩

/-- C6 counterexample: after a successful join_dm by A into a DM whose
live set already contains B (with B's socket registered), the only
emission is the joined_dm confirmation to A's socket, and B receives
none of the emitted events, refuting the claim that every existing live
member of the DM room is notified of the join. -/
theorem C6_counterexample :
    (handleJoinDm stC6 "A" "sA" "d1" true).2 =
      [Emit.mk (Target.sock "sA") (OutEvent.joinedDm "d1")] ∧
    "B" ∈ (alGet stC6.dmUsers "d1").getD [] ∧
    alGet stC6.userSockets "B" = some "sB" ∧
    (∀ e ∈ (handleJoinDm stC6 "A" "sA" "d1" true).2,
      "B" ∉ receiversOf (handleJoinDm stC6 "A" "sA" "d1" true).1 e.target) := by
  decide

theorem mem_deliveredFanout (st : ServerState) (userId : String)
    (members : List String) (msgId channelId : String) (v s : String)
    (hv : v ∈ members) (hne : v ≠ userId)
    (hs : alGet st.userSockets v = some s) :
    Emit.mk (Target.sock s) (OutEvent.messageStatusUpdate msgId channelId "delivered")
      ∈ deliveredFanout st userId members msgId channelId := by
  simp only [deliveredFanout]
  refine List.mem_filterMap.mpr ⟨v, hv, ?_⟩
  simp [hne, hs]

theorem mem_dmDeliveredFanout (st : ServerState) (userId : String)
    (members : List String) (msgId dmId : String) (v s : String)
    (hv : v ∈ members) (hne : v ≠ userId)
    (hs : alGet st.userSockets v = some s) :
    Emit.mk (Target.sock s) (OutEvent.dmMessageStatusUpdate msgId dmId "delivered")
      ∈ dmDeliveredFanout st userId members msgId dmId := by
  simp only [dmDeliveredFanout]
  refine List.mem_filterMap.mpr ⟨v, hv, ?_⟩
  simp [hne, hs]

theorem deliveredFanout_filter_sock (st : ServerState) (userId : String)
    (members : List String) (msgId channelId sid : String)
    (h : ∀ v ∈ members, v ≠ userId → ∀ s, alGet st.userSockets v = some s → s ≠ sid) :
    (deliveredFanout st userId members msgId channelId).filter
      (fun e => targetsSock e sid) = [] := by
  rw [List.filter_eq_nil_iff]
  intro e he
  simp only [deliveredFanout] at he
  obtain ⟨v, hv, hfe⟩ := List.mem_filterMap.mp he
  by_cases hne : v = userId
  · simp [hne] at hfe
  · cases hsv : alGet st.userSockets v with
    | none => simp [hne, hsv] at hfe
    | some s =>
        simp [hne, hsv] at hfe
        have hss := h v hv hne s hsv
        simp [← hfe, targetsSock, hss]

theorem dmDeliveredFanout_filter_sock (st : ServerState) (userId : String)
    (members : List String) (msgId dmId sid : String)
    (h : ∀ v ∈ members, v ≠ userId → ∀ s, alGet st.userSockets v = some s → s ≠ sid) :
    (dmDeliveredFanout st userId members msgId dmId).filter
      (fun e => targetsSock e sid) = [] := by
  rw [List.filter_eq_nil_iff]
  intro e he
  simp only [dmDeliveredFanout] at he
  obtain ⟨v, hv, hfe⟩ := List.mem_filterMap.mp he
  by_cases hne : v = userId
  · simp [hne] at hfe
  · cases hsv : alGet st.userSockets v with
    | none => simp [hne, hsv] at hfe
    | some s =>
        simp [hne, hsv] at hfe
        have hss := h v hv hne s hsv
        simp [← hfe, targetsSock, hss]

theorem unreadFanout_filter_sock (userId : String) (members : List String)
    (dmId sid : String) :
    (unreadFanout userId members dmId).filter (fun e => targetsSock e sid) = [] := by
  rw [List.filter_eq_nil_iff]
  intro e he
  simp only [unreadFanout] at he
  obtain ⟨v, hv, hfe⟩ := List.mem_filterMap.mp he
  by_cases hne : v = userId
  · simp [hne] at hfe
  · simp [hne] at hfe
    simp [← hfe, targetsSock]

/-- C4 (amended): for a new_message (or new_dm_message) from sender S in
a room with a live-set entry, the handler changes no state; it relays
the message tagged status sent to the room minus the sender socket (the
sender is not among the receivers of that relay, while every live member
other than the sender whose socket differs from the sender's is); it
emits one delivered status update addressed to the socket of each live
member other than the sender who has a registered socket; and exactly
one delivered status update is addressed to the sender's own socket,
regardless of how many other members are online. -/
theorem C4_new_message_delivery (st : ServerState)
    (userId sid channelId dmId msgId : String)
    (members dmembers : List String)
    (hch : alGet st.channelUsers channelId = some members)
    (hdm : alGet st.dmUsers dmId = some dmembers)
    (hsock : alGet st.userSockets userId = some sid)
    (hother : ∀ v ∈ members, v ≠ userId → ∀ s, alGet st.userSockets v = some s → s ≠ sid)
    (hotherd : ∀ v ∈ dmembers, v ≠ userId → ∀ s, alGet st.userSockets v = some s → s ≠ sid) :
    (handleNewMessage st userId sid channelId msgId).1 = st ∧
    Emit.mk (Target.roomEx (Room.channel channelId) sid)
        (OutEvent.newMessageEv channelId msgId "sent")
      ∈ (handleNewMessage st userId sid channelId msgId).2 ∧
    userId ∉ receiversOf st (Target.roomEx (Room.channel channelId) sid) ∧
    (∀ v, v ∈ members → v ≠ userId → ∀ s, alGet st.userSockets v = some s →
      v ∈ receiversOf st (Target.roomEx (Room.channel channelId) sid) ∧
      Emit.mk (Target.sock s) (OutEvent.messageStatusUpdate msgId channelId "delivered")
        ∈ (handleNewMessage st userId sid channelId msgId).2) ∧
    (handleNewMessage st userId sid channelId msgId).2.filter
        (fun e => targetsSock e sid) =
      [Emit.mk (Target.sock sid) (OutEvent.messageStatusUpdate msgId channelId "delivered")] ∧
    (handleNewDmMessage st userId sid dmId msgId).1 = st ∧
    Emit.mk (Target.roomEx (Room.dm dmId) sid)
        (OutEvent.newDmMessageEv dmId msgId "sent")
      ∈ (handleNewDmMessage st userId sid dmId msgId).2 ∧
    (handleNewDmMessage st userId sid dmId msgId).2.filter
        (fun e => targetsSock e sid) =
      [Emit.mk (Target.sock sid) (OutEvent.dmMessageStatusUpdate msgId dmId "delivered")] := by
  refine ⟨?_, ?_, ?_, ?_, ?_, ?_, ?_, ?_⟩
  · simp [handleNewMessage, hch]
  · simp [handleNewMessage, hch]
  · simp only [receiversOf, roomMembers, hch, Option.getD_some]
    intro hmem
    rw [List.mem_filter] at hmem
    have hpred := hmem.2
    simp [hsock] at hpred
  · intro v hv hne s hs
    refine ⟨?_, ?_⟩
    · simp only [receiversOf, roomMembers, hch, Option.getD_some]
      refine List.mem_filter.mpr ⟨hv, ?_⟩
      simp [hs, hother v hv hne s hs]
    · simp only [handleNewMessage, hch]
      exact List.mem_cons_of_mem _
        (List.mem_append_left _ (mem_deliveredFanout st userId members msgId channelId v s hv hne hs))
  · simp only [handleNewMessage, hch]
    rw [List.filter_append, List.filter_cons]
    rw [deliveredFanout_filter_sock st userId members msgId channelId sid hother]
    simp [targetsSock]
  · simp [handleNewDmMessage, hdm]
  · simp [handleNewDmMessage, hdm]
  · simp only [handleNewDmMessage, hdm]
    rw [List.filter_append, List.filter_append, List.filter_cons]
    rw [dmDeliveredFanout_filter_sock st userId dmembers msgId dmId sid hotherd]
    rw [unreadFanout_filter_sock userId dmembers dmId sid]
    simp [targetsSock]

/-- A state with sender S and one other online live member B in both a
channel and a DM, for the C4 witness. -/
def stC4W : ServerState :=
  ServerState.mk [("S", "s1"), ("B", "s2")] [("g", ["S", "B"])]
    [("d", ["S", "B"])] [] []

/-- C4 witness: concrete delivery fanout with one other online member. -/
theorem C4_witness :
    Emit.mk (Target.sock "s2") (OutEvent.messageStatusUpdate "m1" "g" "delivered")
      ∈ (handleNewMessage stC4W "S" "s1" "g" "m1").2 ∧
    (handleNewMessage stC4W "S" "s1" "g" "m1").2.filter
        (fun e => targetsSock e "s1") =
      [Emit.mk (Target.sock "s1") (OutEvent.messageStatusUpdate "m1" "g" "delivered")] :=
  ⟨((C4_new_message_delivery stC4W "S" "s1" "g" "d" "m1" ["S", "B"] ["S", "B"]
      (by decide) (by decide) (by decide) (by decide) (by decide)).2.2.2.1
      "B" (by decide) (by decide) "s2" (by decide)).2,
   (C4_new_message_delivery stC4W "S" "s1" "g" "d" "m1" ["S", "B"] ["S", "B"]
      (by decide) (by decide) (by decide) (by decide) (by decide)).2.2.2.2.1⟩

/-- A state where the channel live set contains only the sender, for the
C4 counterexample. -/
def stC4 : ServerState :=
  ServerState.mk [("S", "s1")] [("general", ["S"])] [] [] []

/-- C4 counterexample: with a live set containing only the sender (no
other member, online or not), the handler still emits one delivered
status update addressed to the sender's socket, refuting the claim that
delivered updates to the sender are emitted once per online other
member (here that count is zero). -/
theorem C4_counterexample :
    (handleNewMessage stC4 "S" "s1" "general" "m1").2 =
      [Emit.mk (Target.roomEx (Room.channel "general") "s1")
         (OutEvent.newMessageEv "general" "m1" "sent"),
       Emit.mk (Target.sock "s1")
         (OutEvent.messageStatusUpdate "m1" "general" "delivered")] ∧
    ((alGet stC4.channelUsers "general").getD []).filter (fun v => !(v == "S")) = [] := by
  decide

/-- C2 (amended): processing a disconnect of user U removes U from the
socket registry (isUserOnline becomes false) and from the live set of
every channel and DM room; a user_left notification is published to the
room of every channel whose live set contained U, while DM live sets are
pruned silently (no event of any kind is emitted to a DM room); and no
call session referencing U survives, with a call_ended
reason=disconnected notification emitted to the other party's socket
whenever that party still has a registered socket after U's removal. -/
theorem C2_disconnect_teardown (st : ServerState) (u : String) :
    isUserOnline (handleDisconnect st u).1 u = false ∧
    (∀ c users, alGet (handleDisconnect st u).1.channelUsers c = some users → u ∉ users) ∧
    (∀ d users, alGet (handleDisconnect st u).1.dmUsers d = some users → u ∉ users) ∧
    (∀ c users, alGet st.channelUsers c = some users → u ∈ users →
      Emit.mk (Target.room (Room.channel c)) (OutEvent.userLeft c u)
        ∈ (handleDisconnect st u).2) ∧
    (∀ d ev, Emit.mk (Target.room (Room.dm d)) ev ∉ (handleDisconnect st u).2) ∧
    (∀ cid call, alGet (handleDisconnect st u).1.activeCalls cid = some call →
      call.callerId ≠ u ∧ call.receiverId ≠ u) ∧
    (∀ cid call, alGet st.activeCalls cid = some call →
      call.callerId = u ∨ call.receiverId = u → ∀ osid,
      alGet (alDelete st.userSockets u)
          (if call.callerId = u then call.receiverId else call.callerId) = some osid →
      Emit.mk (Target.sock osid) (OutEvent.callEnded cid u (some "disconnected"))
        ∈ (handleDisconnect st u).2) := by
  refine ⟨?_, ?_, ?_, ?_, ?_, ?_, ?_⟩
  · simp [handleDisconnect, isUserOnline, alGet_alDelete_self]
  · intro c users hget
    simp only [handleDisconnect] at hget
    rw [alGet_removeFromAll] at hget
    cases hc : alGet st.channelUsers c with
    | none => simp [hc] at hget
    | some l =>
        rw [hc] at hget
        have hseq : setRemove l u = users := by simpa using hget
        rw [← hseq]
        exact not_mem_setRemove l u
  · intro d users hget
    simp only [handleDisconnect] at hget
    rw [alGet_removeFromAll] at hget
    cases hc : alGet st.dmUsers d with
    | none => simp [hc] at hget
    | some l =>
        rw [hc] at hget
        have hseq : setRemove l u = users := by simpa using hget
        rw [← hseq]
        exact not_mem_setRemove l u
  · intro c users hget hmem
    have hpair := mem_of_alGet_eq_some st.channelUsers c users hget
    simp only [handleDisconnect]
    refine List.mem_append_left _ (List.mem_append_left _ ?_)
    refine List.mem_filterMap.mpr ⟨(c, users), hpair, ?_⟩
    simp [hmem]
  · intro d ev hmem
    simp only [handleDisconnect] at hmem
    rcases List.mem_append.mp hmem with h1 | h2
    · rcases List.mem_append.mp h1 with hc | hk
      · obtain ⟨p, hp, hfe⟩ := List.mem_filterMap.mp hc
        split at hfe
        · simp at hfe
        · simp at hfe
      · obtain ⟨p, hp, hfe⟩ := List.mem_filterMap.mp hk
        split at hfe
        · split at hfe
          · simp at hfe
          · simp at hfe
        · simp at hfe
    · simp at h2
  · intro cid call hget
    simp only [handleDisconnect] at hget
    have hpair := mem_of_alGet_eq_some _ cid call hget
    have hpred := (List.mem_filter.mp hpair).2
    simp at hpred
    exact hpred
  · intro cid call hget href osid hos
    have hpair := mem_of_alGet_eq_some st.activeCalls cid call hget
    have hcond : (call.callerId == u || call.receiverId == u) = true := by
      rcases href with h | h <;> simp [h]
    simp only [handleDisconnect]
    refine List.mem_append_left _ (List.mem_append_right _ ?_)
    refine List.mem_filterMap.mpr ⟨(cid, call), hpair, ?_⟩
    simp [hcond, hos]

/-- A state with two connected users sharing a DM whose live set holds
both, for the C2 claim. -/
def stC2 : ServerState :=
  ServerState.mk [("A", "sA"), ("B", "sB")] [("g", ["A", "B"])]
    [("d1", ["A", "B"])] [("c1", CallSession.mk "A" "B" MediaKind.audio none)] []

/-- C2 witness: concrete disconnect of A on a populated state. -/
theorem C2_witness :
    isUserOnline (handleDisconnect stC2 "A").1 "A" = false ∧
    Emit.mk (Target.room (Room.channel "g")) (OutEvent.userLeft "g" "A")
      ∈ (handleDisconnect stC2 "A").2 ∧
    Emit.mk (Target.sock "sB") (OutEvent.callEnded "c1" "A" (some "disconnected"))
      ∈ (handleDisconnect stC2 "A").2 :=
  ⟨(C2_disconnect_teardown stC2 "A").1,
   (C2_disconnect_teardown stC2 "A").2.2.2.1 "g" ["A", "B"] (by decide) (by decide),
   (C2_disconnect_teardown stC2 "A").2.2.2.2.2.2 "c1"
     (CallSession.mk "A" "B" MediaKind.audio none) (by decide) (Or.inl (by decide))
     "sB" (by decide)⟩

/-- C2 counterexample: disconnecting A from a state where only the DM
room d1 contains A (with B remaining live and connected) emits only the
offline presence broadcast; no user_left (or any other) notification is
published to the remaining DM member, refuting the claim that user_left
is published to the remaining live members of every affected room
including DMs. -/
theorem C2_counterexample :
    (handleDisconnect (ServerState.mk [("A", "sA"), ("B", "sB")] []
        [("d1", ["A", "B"])] [] []) "A").2 =
      [Emit.mk Target.all (OutEvent.userPresence "A" "offline")] ∧
    "B" ∈ (alGet (handleDisconnect (ServerState.mk [("A", "sA"), ("B", "sB")] []
        [("d1", ["A", "B"])] [] []) "A").1.dmUsers "d1").getD [] := by
  decide

end RadComm
